import Mathlib

/-!
Shallow embedding of the VayuBots conversation core:
the WhatsApp intent parser (`whatsapp_parser.py`), conversation state store
(`whatsapp_state.py`), dialogue router (`whatsapp_router.py`) and the hybrid
session store (`session.py`).  External collaborators (record store, LLM,
publisher, messaging channel) are modelled as oracles supplied through an
environment record; side-effecting collaborator calls are recorded in a trace.
Timestamps are seconds since an epoch (`Int`); Python's
`(now - ts).seconds` quirk (the seconds component of a normalized timedelta,
i.e. reduction modulo 86400) is modelled exactly.
-/

namespace Vayu

/-- `listPrefixOf needle hay`: the first list is a prefix of the second. -/
def listPrefixOf : List Char → List Char → Bool
  | [], _ => true
  | _ :: _, [] => false
  | a :: as, b :: bs => a = b && listPrefixOf as bs

/-- `listInfixOf needle hay`: the first list occurs contiguously in the second. -/
def listInfixOf : List Char → List Char → Bool
  | needle, [] => needle.isEmpty
  | needle, c :: rest => listPrefixOf needle (c :: rest) || listInfixOf needle rest

/-- Python `needle in hay` substring test. -/
def pyContains (hay needle : String) : Bool :=
  listInfixOf needle.toList hay.toList

/-- Python `any(kw in msg for kw in kws)`. -/
def anyKw (msg : String) (kws : List String) : Bool :=
  kws.any (fun k => pyContains msg k)

/-- Python `s.startswith(prefix)`. -/
def pyStartsWith (s pre : String) : Bool :=
  listPrefixOf pre.toList s.toList

/-- Python `s.endswith(suffix)`. -/
def pyEndsWith (s suffix : String) : Bool :=
  listPrefixOf suffix.toList.reverse s.toList.reverse

/-- ASCII lower-casing of one character (all the command keywords are
ASCII). -/
def lowerChar (c : Char) : Char :=
  if 65 ≤ c.toNat ∧ c.toNat ≤ 90 then Char.ofNat (c.toNat + 32) else c

def isSpaceChar (c : Char) : Bool :=
  c = ' ' || c = '\t' || c = '\n' || c = '\r'

def stripLeft : List Char → List Char
  | c :: rest => if isSpaceChar c then stripLeft rest else c :: rest
  | [] => []

/-- Python `s.strip()` on a character list. -/
def pyStrip (l : List Char) : List Char :=
  (stripLeft (stripLeft l).reverse).reverse

/-- Python `s.strip()`. -/
def pyStripStr (s : String) : String :=
  ⟨pyStrip s.data⟩

/-- Python `s.lower().strip()`. -/
def pyLowerStrip (s : String) : String :=
  ⟨pyStrip (s.data.map lowerChar)⟩

/-- Python `s.strip().lower()`. -/
def pyStripLower (s : String) : String :=
  ⟨(pyStrip s.data).map lowerChar⟩

/-- Update one key of a string-keyed map. -/
def setF {α : Type} (f : String → Option α) (k : String) (v : α) : String → Option α :=
  fun k' => if k' = k then some v else f k'

/-- Remove one key of a string-keyed map (Python `del d[k]`). -/
def delF {α : Type} (f : String → Option α) (k : String) : String → Option α :=
  fun k' => if k' = k then none else f k'

/-- Python `(now - ts).seconds` for epoch-second stamps: the seconds field of a
normalized `timedelta`, i.e. the difference reduced modulo 86400 (floor
convention, always in `[0, 86400)`). -/
def tdSeconds (now ts : Int) : Int :=
  (now - ts) % 86400

/-- A dynamically-typed Python value as stored under `context["post_id"]`:
`None`, an `int`, or a `str`. -/
inductive PVal where
  | none
  | int (n : Nat)
  | str (s : String)
deriving DecidableEq, Repr

/-- Python truthiness for the values a `post_id` slot can hold. -/
def PVal.truthy : PVal → Bool
  | .none => false
  | .int n => n ≠ 0
  | .str s => s ≠ ""

def pvOfOptStr : Option String → PVal
  | some s => .str s
  | Option.none => .none

def pvOfOptNat : Option Nat → PVal
  | some n => .int n
  | Option.none => .none

/-- The `modifications` dict of `_extract_modifications`: each flag records
whether the corresponding key is present (value is always
`"change_requested"`). -/
structure Mods where
  image : Bool := false
  content : Bool := false
  hashtags : Bool := false
deriving DecidableEq, Repr

/-- `WhatsAppParser._extract_modifications`. -/
def extract_modifications (message : String) : Mods :=
  { image := pyContains message "image" || pyContains message "photo"
    content := anyKw message ["content", "caption", "text"]
    hashtags := pyContains message "hashtag" }

/-- `WhatsAppParser._extract_idea_text`: strips known lead-in phrases. -/
def extract_idea_text (message : String) : String :=
  let m1 := message.replace "take this idea" ""
  let m2 := m1.replace "create post" ""
  let m3 := m2.replace "make a post" ""
  let m4 := m3.replace "post about" ""
  let m5 := m4.replace "idea for" ""
  pyStripStr m5

/-- Calendar view of a Python `datetime` as used by `_parse_schedule_time`:
an ordinal day number (epoch day 0 is a Monday, so `weekday = day % 7`)
plus hour and minute. -/
structure PyDate where
  day : Int
  hour : Nat
  minute : Nat
deriving DecidableEq, Repr

def PyDate.weekday (d : PyDate) : Int := d.day % 7

def PyDate.addDays (d : PyDate) (n : Int) : PyDate := { d with day := d.day + n }

def PyDate.replaceTime (d : PyDate) (h m : Nat) : PyDate := { d with hour := h, minute := m }

def digitsToNat (l : List Char) : Nat :=
  l.foldl (fun a c => a * 10 + (c.toNat - 48)) 0

def takeDigits : List Char → List Char
  | c :: rest => if c.isDigit then c :: takeDigits rest else []
  | [] => []

/-- Python `re.search(r'\d+', msg)`: value of the first maximal digit run. -/
def searchDigits : List Char → Option Nat
  | [] => none
  | c :: rest => if c.isDigit then some (digitsToNat (c :: takeDigits rest)) else searchDigits rest

/-- The optional `(?::(\d{2}))` group of the schedule-time pattern. -/
def matchMinute : List Char → Option (Nat × List Char)
  | ':' :: a :: b :: rest =>
      if a.isDigit && b.isDigit then some (digitsToNat [a, b], rest) else none
  | _ => none

def skipSpaces : List Char → List Char
  | c :: rest => if c = ' ' || c = '\t' || c = '\n' || c = '\r' then skipSpaces rest else c :: rest
  | [] => []

/-- The optional `(am|pm)` group. -/
def matchPeriod : List Char → Option String
  | 'a' :: 'm' :: _ => some "am"
  | 'p' :: 'm' :: _ => some "pm"
  | _ => none

/-- Python `re.search(r'(\d{1,2})(?::(\d{2}))?\s*(am|pm)?', msg)`:
first match position, greedy 1–2 digit hour, optional `:mm`, optional
am/pm marker after whitespace. -/
def searchTime : List Char → Option (Nat × Nat × Option String)
  | [] => none
  | c :: rest =>
      if c.isDigit then
        let hr : List Char × List Char :=
          match rest with
          | d :: r2 => if d.isDigit then ([c, d], r2) else ([c], rest)
          | [] => ([c], [])
        let mn : Nat × List Char :=
          match matchMinute hr.2 with
          | some (m, r) => (m, r)
          | none => (0, hr.2)
        some (digitsToNat hr.1, mn.1, matchPeriod (skipSpaces mn.2))
      else searchTime rest

def dayNames : List String :=
  ["monday", "tuesday", "wednesday", "thursday", "friday", "saturday", "sunday"]

/-- The `for i, day in enumerate(days): if day in message` loop of
`_parse_schedule_time`: index of the first weekday name contained in the
message. -/
def findDayIndex (message : String) : Option Nat :=
  (List.range 7).find? (fun i => pyContains message (dayNames.getD i ""))

/-- `WhatsAppParser._parse_schedule_time`. -/
def parse_schedule_time (now : PyDate) (message : String) : Option PyDate :=
  let target_date : Option PyDate :=
    if pyContains message "tomorrow" then some (now.addDays 1)
    else
      match findDayIndex message with
      | some i =>
          let d := ((i : Int) - now.weekday) % 7
          let days_ahead := if d = 0 then 7 else d
          some (now.addDays days_ahead)
      | none => none
  match target_date with
  | none => none
  | some t =>
      match searchTime message.toList with
      | some (h, m, period) =>
          let hour := if period = some "pm" && h < 12 then h + 12 else h
          let hour := if period = some "am" && hour = 12 then 0 else hour
          some (t.replaceTime hour m)
      | none => some (t.replaceTime 9 0)

/-- Conversation state (`whatsapp_state.STATE` entries).  The Python dict only
ever carries these keys; a `none` field models the key being absent (or, for
`last_action` / `last_post_id`, holding `None` — the code never distinguishes
the two for them). -/
structure ConvState where
  last_action : Option String
  timestamp : Int
  post_options : Option (List String) := none
  idea_options : Option (List String) := none
  last_post_id : Option String := none
  last_image_url : Option String := none
  step : Option String := none
  expected_mods : Option Mods := none
deriving DecidableEq, Repr

/-- The `data` argument of `update_state`: which keys the caller passes. -/
structure StateData where
  post_options : Option (List String) := none
  idea_options : Option (List String) := none
  last_post_id : Option String := none
  last_image_url : Option String := none
  step : Option String := none
  expected_mods : Option Mods := none
deriving DecidableEq, Repr

/-- The parser/router `context` dict.  A `some` field models the key being
present. -/
structure Ctx where
  client_id : String
  post_id : Option PVal := none
  modifications : Option Mods := none
  schedule_time : Option (Option PyDate) := none
  idea_text : Option String := none
  extra_note : Option String := none
  idea : Option String := none
  image_url : Option String := none
  idea_id : Option String := none
deriving DecidableEq, Repr

namespace WhatsAppParser

/-- `WhatsAppParser._handle_selection`. -/
def handle_selection (last_action : Option String) (state : ConvState) (index : Nat)
    (context : Ctx) : Option String × Ctx :=
  if last_action = some "show_posts" then
    let post_options := state.post_options.getD []
    if h : index < post_options.length then
      (some "post_selected", { context with post_id := some (.str (post_options.get ⟨index, h⟩)) })
    else (none, context)
  else if last_action = some "show_ideas" then
    let idea_options := state.idea_options.getD []
    if h : index < idea_options.length then
      (some "idea_selected", { context with idea_id := some (idea_options.get ⟨index, h⟩) })
    else (none, context)
  else (none, context)

/-- `WhatsAppParser.parse_message`.  `nowD` is the ambient clock
(`datetime.now()`) as seen by schedule-time parsing. -/
def parse_message (nowD : PyDate) (message : String) (client_id : String)
    (state : ConvState) : Option String × Ctx :=
  let msg := pyLowerStrip message
  let context : Ctx := { client_id := client_id }
  let last_action := state.last_action
  if msg ∈ ["hi", "hello", "hey", "start", "menu"] then (some "greeting", context)
  else if msg ∈ ["done", "skip", "no", "that\x27s all"] then (some "done", context)
  else if msg ∈ ["1", "social media", "karna"] then (some "social_media_menu", context)
  else if anyKw msg ["show", "see posts", "show me", "pending posts"] then
    (some "show_posts", context)
  else if anyKw msg ["all", "show all", "all posts"] then (some "show_all_posts", context)
  else if anyKw msg ["new", "create new", "new idea", "generate"] then
    (some "curate_ideas", context)
  else if anyKw msg ["update", "edit", "change", "modify"] then
    let modifications := extract_modifications msg
    (some "modify_post",
      { context with post_id := some (pvOfOptStr state.last_post_id)
                     modifications := some modifications })
  else if pyStartsWith msg "approve" || msg = "publish" then
    let post_index := searchDigits msg.toList
    let schedule_time := parse_schedule_time nowD msg
    (some "approve_post",
      { context with post_id := some (pvOfOptNat post_index)
                     schedule_time := some schedule_time })
  else if msg ∈ ["1", "2", "3", "first", "second", "third"] then
    let index : Nat :=
      if pyStartsWith msg "1" || pyContains msg "first" then 0
      else if pyStartsWith msg "2" || pyContains msg "second" then 1
      else 2
    handle_selection last_action state index context
  else if pyContains msg "analytics" then (some "analytics", context)
  else if anyKw msg ["summary", "report", "performance"] then (some "summary", context)
  else if msg ∈ ["skip", "none"] then (some "skip", context)
  else if last_action = some "awaiting_idea" || last_action = some "awaiting_image" then
    if msg ∈ ["done", "skip", "menu"] then (some msg, context)
    else if last_action = some "awaiting_idea" then
      (some "idea_text", { context with idea_text := some (pyStripStr message) })
    else if last_action = some "awaiting_image" then
      (some "image_note", { context with extra_note := some (pyStripStr message) })
    else (none, context)
  else if anyKw msg ["post about", "idea", "create post", "make a post"] then
    let idea_text := extract_idea_text msg
    (some "create_from_idea",
      { context with idea := some idea_text, image_url := state.last_image_url })
  else (none, context)

end WhatsAppParser

/-- An Airtable post record as the router reads it: `id` plus the two
well-known fields (`Caption`, `Image URL`). -/
structure Post where
  id : String
  caption : Option String := none
  imageUrl : Option String := none
deriving DecidableEq, Repr

/-- The fields of `get_client_config` the router reads (each with a `.get`
default). -/
structure ClientConfig where
  brand_voice : Option String := none
  instructions : Option String := none
  name : Option String := none
deriving DecidableEq, Repr

/-- The JSON object returned by the GPT intent fallback. -/
structure GptOut where
  action : Option String := none
  idea : Option String := none
deriving DecidableEq, Repr

/-- A `PENDING_IDEAS` entry. -/
structure PendingIdea where
  idea_text : String
  timestamp : Int
deriving DecidableEq, Repr

/-- The mutable process state the router touches: the `STATE` cache, its
Airtable `WhatsAppState` mirror, and `PENDING_IDEAS`. -/
structure Store where
  conv : String → Option ConvState
  stateTable : String → Option ConvState
  pending : String → Option PendingIdea

/-- Oracles for the external collaborators.  An `Except.error` models the
call raising; `stateReadOk` / `statePersistOk` model whether the (internally
guarded) Airtable calls of the conversation-state store succeed. -/
structure Env where
  clientConfig : Except String ClientConfig
  gpt : Except String GptOut
  listTopPosts : Except String (List Post)
  listAllPendingPosts : Except String (List Post)
  approvePublish : String → Except String Unit
  updatePostImageUrl : String → String → Except String Unit
  updatePostCaption : String → String → Except String Unit
  getPostById : String → Except String Post
  analytics : Except String String
  stateReadOk : Bool
  statePersistOk : Bool

/-- Observable collaborator calls made while handling one message. -/
inductive Event where
  | gptCall
  | listTopPosts (client_id : String)
  | listAllPendingPosts (client_id : String)
  | approvePublish (client_id post_id : String)
  | updateImage (post_id url : String)
  | updateCaption (post_id text : String)
  | getPost (post_id : String)
  | analyticsCall (client_id : String)
  | dispatchDraft (client_id idea_text : String) (image_url : Option String) (user_id : String)
deriving DecidableEq, Repr

/-- Python truthiness of an optional string (`None` and `""` are falsy). -/
def optStrTruthy : Option String → Bool
  | some s => s ≠ ""
  | none => false

/-- Rendering of a `PVal` for storage in a string field.  On every reachable
path the value is already a string; the other cases only make the function
total. -/
def pvToString : PVal → String
  | .str s => s
  | .int n => toString n
  | .none => ""

/-- Python `context.get("post_id") or fallback`. -/
def pvOrState (c : Option PVal) (fallback : Option String) : Option String :=
  match c with
  | some pv => if pv.truthy then some (pvToString pv) else fallback
  | none => fallback

/-- `whatsapp_state.get_state`, steps 2–3: Airtable restore, else a fresh
empty state; either result is cached. -/
def get_state_restore (env : Env) (store : Store) (now : Int) (client_id : String) :
    ConvState × Store :=
  if env.stateReadOk then
    match store.stateTable client_id with
    | some saved =>
        let state_data := { saved with timestamp := now }
        (state_data, { store with conv := setF store.conv client_id state_data })
    | none =>
        let new_state : ConvState := { last_action := none, timestamp := now }
        (new_state, { store with conv := setF store.conv client_id new_state })
  else
    let new_state : ConvState := { last_action := none, timestamp := now }
    (new_state, { store with conv := setF store.conv client_id new_state })

/-- `whatsapp_state.get_state`. -/
def get_state (env : Env) (store : Store) (now : Int) (client_id : String) :
    ConvState × Store :=
  match store.conv client_id with
  | some session =>
      if tdSeconds now session.timestamp ≤ 900 then (session, store)
      else get_state_restore env store now client_id
  | none => get_state_restore env store now client_id

/-- `whatsapp_state.update_state`: builds a fresh state dict from
`last_action`, `timestamp` and `data` (no merge with the previous state),
writes it to the cache and persists it (persistence failures are swallowed). -/
def update_state (env : Env) (store : Store) (now : Int) (client_id : String)
    (action : Option String) (data : StateData) : Store :=
  let state_data : ConvState :=
    { last_action := action, timestamp := now
      post_options := data.post_options, idea_options := data.idea_options
      last_post_id := data.last_post_id, last_image_url := data.last_image_url
      step := data.step, expected_mods := data.expected_mods }
  let store' := { store with conv := setF store.conv client_id state_data }
  if env.statePersistOk then
    { store' with stateTable := setF store'.stateTable client_id state_data }
  else store'

/-- `_fmt_posts_list`. -/
def fmt_posts_list (records : List Post) : String :=
  if records = [] then "❌ No posts."
  else
    let lines := records.enum.map (fun p =>
      let cap := p.2.caption.getD ""
      let preview := if cap.length > 110 then cap.take 110 ++ "…" else cap
      toString (p.1 + 1) ++ ". " ++ preview)
    String.intercalate "\n" lines

/- Reply strings of the router, one definition per literal in the source. -/

def msg_menu (client_name : String) : String :=
  "👋 Hi " ++ client_name ++ ", Karna here – your Social Media Agent.\n" ++
  "What would you like to do?\n" ++
  "show → Show top 3 posts\n" ++
  "all → Show all pending posts\n" ++
  "new → Create a new post\n" ++
  "report → Report engagement\n" ++
  "analytics → See analytics\n" ++
  "Say \x27exit\x27 anytime to return to Vayu."

def msg_no_posts : String := "❌ No curated posts available right now."

def msg_top_posts (posts : List Post) : String :=
  "📝 Top posts:\n" ++ fmt_posts_list posts ++ "\n\nReply \x27approve 1/2/3\x27 to choose."

def msg_no_pending : String := "❌ No pending posts available."

def msg_all_posts (posts : List Post) : String :=
  "📋 All pending posts:\n" ++ fmt_posts_list posts ++ "\n\nPick one by number, or say \x27none\x27."

def msg_selection_not_found : String := "⚠️ I couldn’t find that selection. Try again with 1/2/3."

def msg_selected (post_id : String) : String :=
  "👍 Selected post " ++ post_id ++ ". Say \x27publish\x27 to approve or \x27update\x27 to change it."

def msg_bad_number : String := "⚠️ That number doesn’t match any post. Try 1/2/3 after \x27show\x27."

def msg_no_post_selected : String := "⚠️ No post selected. Reply 1/2/3 after \x27show posts\x27."

def msg_approved : String := "✅ Post approved & publish attempted. Check your dashboard."

def msg_publish_failed : String := "⚠️ Couldn’t publish that post. Please try again."

def msg_modify : String := "✏️ Sure — send new caption text or image URL."

def msg_no_post_use_show : String := "⚠️ No post selected. Use \x27show posts\x27 first."

def msg_image_updated : String := "🖼️ Image updated."

def msg_caption_updated : String := "✏️ Caption updated."

def msg_curate : String :=
  "💡 Great — let\x27s create something new!\n" ++
  "Please type your idea or content (e.g., \x27Promote my weekend café offer\x27).\n" ++
  "You can also send an image with it.\n\n" ++
  "Say \x27skip\x27 to go back to menu."

def msg_got_idea : String :=
  "📝 Got your idea text!\n" ++
  "If you want to add an image, please send it now.\n" ++
  "Otherwise, type \x27done\x27 to continue."

def msg_draft_started : String :=
  "⌛ Great — creating your draft post. I’ll notify you once it’s ready!"

def msg_draft_with_image : String :=
  "⌛ Awesome — got your image too! Creating your draft now..."

def msg_analytics (a : String) : String := "📈 Analytics Summary:\n" ++ a

def msg_skip : String := "👍 No worries. Back to main menu."

def msg_fallback : String :=
  "🤔 Not sure what you mean. Try \x27show\x27, \x27new\x27, or \x27analytics\x27."

def msg_error : String := "⚠️ Something went wrong. Please try again later."

/-- Tail of the approve flow: the `if not post_id` guard, the guarded
`approve_and_publish_post` call and the state transition to `menu`. -/
def approveFinish (env : Env) (store : Store) (now : Int) (user_id client_id : String)
    (post_id : Option String) (tr : List Event) :
    Except String String × Store × List Event :=
  if optStrTruthy post_id then
    let pid := post_id.getD ""
    match env.approvePublish pid with
    | .ok _ =>
        (.ok msg_approved, update_state env store now user_id (some "menu") {},
         tr ++ [.approvePublish client_id pid])
    | .error _ =>
        (.ok msg_publish_failed, store, tr ++ [.approvePublish client_id pid])
  else (.ok msg_no_post_selected, store, tr)

/-- Tail of the update-pending flow: fetch the updated post for a preview
(guarded), then transition to `post_selected` either way. -/
def afterUpdate (env : Env) (store : Store) (now : Int) (user_id : String)
    (post_id : String) (msg : String) (tr : List Event) :
    Except String String × Store × List Event :=
  match env.getPostById post_id with
  | .ok updated_post =>
      let caption := updated_post.caption.getD "[No caption]"
      let image := updated_post.imageUrl
      let preview := msg ++ "\n\n📝 Updated caption:\n" ++ caption
      let preview := if optStrTruthy image then preview ++ "\n🖼️ " ++ image.getD "" else preview
      let preview := preview ++ "\n\nSay \x27publish\x27 when ready."
      (.ok preview,
       update_state env store now user_id (some "post_selected") { last_post_id := some post_id },
       tr ++ [.getPost post_id])
  | .error _ =>
      (.ok (msg ++ " Say \x27publish\x27 when ready."),
       update_state env store now user_id (some "post_selected") { last_post_id := some post_id },
       tr ++ [.getPost post_id])

/- The dispatch chain of `handle_message`, one definition per `elif` branch
of the source, dispatched in source order by `routeCore` below. -/

/-- The greeting / social-media-menu / `"menu"` branch. -/
def greetingBranch (env : Env) (store : Store) (now : Int) (user_id client_name : String)
    (tr : List Event) : Except String String × Store × List Event :=
  (.ok (msg_menu client_name), update_state env store now user_id (some "menu") {}, tr)

/-- The `show_posts` branch. -/
def showPostsBranch (env : Env) (store : Store) (now : Int) (user_id client_id : String)
    (tr : List Event) : Except String String × Store × List Event :=
  match env.listTopPosts with
  | .error e => (.error e, store, tr ++ [.listTopPosts client_id])
  | .ok posts =>
      if posts = [] then (.ok msg_no_posts, store, tr ++ [.listTopPosts client_id])
      else
        (.ok (msg_top_posts posts),
         update_state env store now user_id (some "show_posts")
           { post_options := some (posts.map Post.id) },
         tr ++ [.listTopPosts client_id])

/-- The `show_all_posts` branch. -/
def showAllPostsBranch (env : Env) (store : Store) (now : Int) (user_id client_id : String)
    (tr : List Event) : Except String String × Store × List Event :=
  match env.listAllPendingPosts with
  | .error e => (.error e, store, tr ++ [.listAllPendingPosts client_id])
  | .ok posts =>
      if posts = [] then (.ok msg_no_pending, store, tr ++ [.listAllPendingPosts client_id])
      else
        (.ok (msg_all_posts posts),
         update_state env store now user_id (some "show_posts")
           { post_options := some (posts.map Post.id) },
         tr ++ [.listAllPendingPosts client_id])

/-- The `post_selected` branch. -/
def postSelectedBranch (env : Env) (store : Store) (now : Int) (user_id : String)
    (context : Ctx) (tr : List Event) : Except String String × Store × List Event :=
  match context.post_id with
  | some pv =>
      if pv.truthy then
        let pid := pvToString pv
        (.ok (msg_selected pid),
         update_state env store now user_id (some "post_selected") { last_post_id := some pid },
         tr)
      else (.ok msg_selection_not_found, store, tr)
  | none => (.ok msg_selection_not_found, store, tr)

/-- The `approve_post` branch. -/
def approveBranch (env : Env) (store : Store) (now : Int) (user_id client_id : String)
    (state : ConvState) (context : Ctx) (tr : List Event) :
    Except String String × Store × List Event :=
  match context.post_id with
  | some (.int n) =>
      let options := state.post_options.getD []
      if 1 ≤ n && n ≤ options.length then
        approveFinish env store now user_id client_id (some (options.getD (n - 1) "")) tr
      else (.ok msg_bad_number, store, tr)
  | selection => approveFinish env store now user_id client_id (pvOrState selection state.last_post_id) tr

/-- The `modify_post` branch. -/
def modifyPostBranch (env : Env) (store : Store) (now : Int) (user_id : String)
    (state : ConvState) (context : Ctx) (tr : List Event) :
    Except String String × Store × List Event :=
  (.ok msg_modify,
   update_state env store now user_id (some "update_pending")
     { last_post_id := pvOrState context.post_id state.last_post_id
       expected_mods := some (context.modifications.getD {}) },
   tr)

/-- The `update_pending` free-text continuation branch. -/
def updatePendingBranch (env : Env) (store : Store) (now : Int) (user_id : String)
    (state : ConvState) (text_clean text : String) (tr : List Event) :
    Except String String × Store × List Event :=
  if optStrTruthy state.last_post_id then
    let post_id := state.last_post_id.getD ""
    let text_l := text_clean
    if pyContains text_l "http" && (pyEndsWith text_l ".jpg" || pyEndsWith text_l ".png") then
      match env.updatePostImageUrl post_id (pyStripStr text) with
      | .error e => (.error e, store, tr ++ [.updateImage post_id (pyStripStr text)])
      | .ok _ =>
          afterUpdate env store now user_id post_id msg_image_updated
            (tr ++ [.updateImage post_id (pyStripStr text)])
    else
      match env.updatePostCaption post_id text with
      | .error e => (.error e, store, tr ++ [.updateCaption post_id text])
      | .ok _ =>
          afterUpdate env store now user_id post_id msg_caption_updated
            (tr ++ [.updateCaption post_id text])
  else (.ok msg_no_post_use_show, store, tr)

/-- The `curate_ideas` branch. -/
def curateIdeasBranch (env : Env) (store : Store) (now : Int) (user_id : String)
    (tr : List Event) : Except String String × Store × List Event :=
  (.ok msg_curate,
   update_state env store now user_id (some "awaiting_idea") { step := some "awaiting_idea" },
   tr)

/-- The `awaiting_idea` free-text branch. -/
def awaitingIdeaBranch (env : Env) (store : Store) (now : Int) (user_id text : String)
    (tr : List Event) : Except String String × Store × List Event :=
  let idea_text := pyStripStr text
  let store' := { store with
    pending := setF store.pending user_id { idea_text := idea_text, timestamp := now } }
  (.ok msg_got_idea, update_state env store' now user_id (some "awaiting_image") {}, tr)

/-- The `awaiting_image` branch (`"done"`, an attached image, or fall
through). -/
def awaitingImageBranch (env : Env) (store : Store) (now : Int)
    (user_id client_id text_clean : String) (image_url : Option String) (tr : List Event) :
    Except String String × Store × List Event :=
  let pending := store.pending user_id
  if text_clean = "done" then
    match pending with
    | none => (.error "AttributeError: NoneType has no attribute get", store, tr)
    | some p =>
        let idea_text := p.idea_text
        let store' := update_state env store now user_id (some "curating") {}
        let store'' := { store' with pending := delF store'.pending user_id }
        (.ok msg_draft_started, store'',
         tr ++ [.dispatchDraft client_id idea_text none user_id])
  else if optStrTruthy image_url then
    match pending with
    | none => (.error "AttributeError: NoneType has no attribute get", store, tr)
    | some p =>
        let idea_text := p.idea_text
        let store' := update_state env store now user_id (some "curating") {}
        let store'' := { store' with pending := delF store'.pending user_id }
        (.ok msg_draft_with_image, store'',
         tr ++ [.dispatchDraft client_id idea_text image_url user_id])
  else (.ok msg_fallback, store, tr)

/-- The `analytics` branch. -/
def analyticsBranch (env : Env) (store : Store) (client_id : String) (tr : List Event) :
    Except String String × Store × List Event :=
  match env.analytics with
  | .error e => (.error e, store, tr ++ [.analyticsCall client_id])
  | .ok a => (.ok (msg_analytics a), store, tr ++ [.analyticsCall client_id])

/-- The skip/none branch. -/
def skipBranch (env : Env) (store : Store) (now : Int) (user_id : String) (tr : List Event) :
    Except String String × Store × List Event :=
  (.ok msg_skip, update_state env store now user_id (some "menu") {}, tr)

/-- The deterministic action-dispatch chain of `handle_message` (everything
after the GPT fallback), in source order. -/
def routeCore (env : Env) (store : Store) (now : Int) (user_id client_id client_name : String)
    (state : ConvState) (action : Option String) (context : Ctx)
    (text_clean text : String) (image_url : Option String) (tr : List Event) :
    Except String String × Store × List Event :=
  if action = some "greeting" ∨ action = some "social_media_menu" ∨ text_clean = "menu" then
    greetingBranch env store now user_id client_name tr
  else if action = some "show_posts" then
    showPostsBranch env store now user_id client_id tr
  else if action = some "show_all_posts" then
    showAllPostsBranch env store now user_id client_id tr
  else if action = some "post_selected" then
    postSelectedBranch env store now user_id context tr
  else if action = some "approve_post" then
    approveBranch env store now user_id client_id state context tr
  else if action = some "modify_post" then
    modifyPostBranch env store now user_id state context tr
  else if state.last_action = some "update_pending" then
    updatePendingBranch env store now user_id state text_clean text tr
  else if action = some "curate_ideas" then
    curateIdeasBranch env store now user_id tr
  else if state.last_action = some "awaiting_idea" ∧ ¬ (text_clean = "skip" ∨ text_clean = "menu") then
    awaitingIdeaBranch env store now user_id text tr
  else if state.last_action = some "awaiting_image" then
    awaitingImageBranch env store now user_id client_id text_clean image_url tr
  else if action = some "analytics" then
    analyticsBranch env store client_id tr
  else if text_clean = "skip" ∨ text_clean = "none" then
    skipBranch env store now user_id tr
  else (.ok msg_fallback, store, tr)

/-- The image write-through of `handle_message` (the
`update_state(user_id, state.get("last_action", "menu"), {"last_image_url": image_url})`
call performed before the parsed action is routed).  The `.get` default never
fires: every state the store hands out carries the `last_action` key. -/
def imageWriteThrough (env : Env) (store : Store) (now : Int) (user_id : String)
    (state : ConvState) (image_url : Option String) : Store :=
  update_state env store now user_id state.last_action { last_image_url := image_url }

/-- The body of `handle_message` (the code inside the outer `try`): state
fetch, client config, deterministic parse, image write-through, GPT fallback,
then the dispatch chain. -/
def handleBody (env : Env) (store0 : Store) (now : Int) (nowD : PyDate)
    (user_id text : String) (image_url : Option String) :
    Except String String × Store × List Event :=
  let gs := get_state env store0 now user_id
  let state := gs.1
  let store1 := gs.2
  let client_id := user_id
  let text_clean := pyStripLower text
  match env.clientConfig with
  | .error e => (.error e, store1, [])
  | .ok client_cfg =>
      let client_name := client_cfg.name.getD "Client"
      let pm := WhatsAppParser.parse_message nowD text_clean client_id state
      let action0 := pm.1
      let context0 := pm.2
      -- `if image_url:` — write the image through before dispatch; the dict
      -- `state` keeps its pre-write contents (the router reads the snapshot).
      let cs :=
        if optStrTruthy image_url then
          ({ context0 with image_url := image_url },
           imageWriteThrough env store1 now user_id state image_url)
        else (context0, store1)
      let context := cs.1
      let store2 := cs.2
      let gptStep : Option String × String × List Event :=
        if action0 = none || action0 = some "unknown" then
          match env.gpt with
          | .ok parsed =>
              let a := parsed.action.getD "unknown"
              let t := if a = "create_post" then parsed.idea.getD text else text
              (some a, t, [Event.gptCall])
          | .error _ => (some "unknown", text, [Event.gptCall])
        else (action0, text, [])
      routeCore env store2 now user_id client_id client_name state gptStep.1 context
        text_clean gptStep.2.1 image_url gptStep.2.2

/-- Result of `handle_message`: the reply text, the final mutable state and
the trace of collaborator calls. -/
structure RouterResult where
  reply : String
  store : Store
  trace : List Event

/-- `whatsapp_router.handle_message`: the body wrapped in the outer
`try/except` that converts any escaped exception into a fixed apology
reply (state mutations already performed are kept). -/
def handle_message (env : Env) (store : Store) (now : Int) (nowD : PyDate)
    (user_id text : String) (image_url : Option String) : RouterResult :=
  let b := handleBody env store now nowD user_id text image_url
  ⟨match b.1 with
    | .ok reply => reply
    | .error _ => msg_error,
   b.2.1, b.2.2⟩

/-! ### The hybrid session store (`vayu/flows/session.py`) -/

namespace Session

/-- A `SESSIONS` entry: `active_agent`, `timestamp`, plus the free-form
agent-specific extension fields. -/
structure SessionData where
  active_agent : Option String
  timestamp : Int
  extra : List (String × String) := []
deriving DecidableEq, Repr

/-- The `SessionJSON` payload written by `_save_to_airtable`: the session
minus its `timestamp` key. -/
structure SavedSession where
  active_agent : Option String
  extra : List (String × String) := []
deriving DecidableEq, Repr

/-- The session cache plus its Airtable `Sessions` table mirror. -/
structure SessStore where
  sessions : String → Option SessionData
  table : String → Option SavedSession

/-- Oracles for the session store's Airtable layer: whether the guarded read
in `get_session` succeeds, and whether the fire-and-forget background
write/delete threads have completed successfully. -/
structure SessEnv where
  readOk : Bool
  saveRuns : Bool
  deleteRuns : Bool
deriving DecidableEq, Repr

/-- `get_session`, steps 2–3: Airtable restore, else a fresh empty session;
either result is cached. -/
def get_session_restore (env : SessEnv) (store : SessStore) (now : Int) (user_id : String) :
    SessionData × SessStore :=
  if env.readOk then
    match store.table user_id with
    | some saved =>
        let session_data : SessionData :=
          { active_agent := saved.active_agent, timestamp := now, extra := saved.extra }
        (session_data, { store with sessions := setF store.sessions user_id session_data })
    | none =>
        let new_session : SessionData := { active_agent := none, timestamp := now }
        (new_session, { store with sessions := setF store.sessions user_id new_session })
  else
    let new_session : SessionData := { active_agent := none, timestamp := now }
    (new_session, { store with sessions := setF store.sessions user_id new_session })

/-- `get_session`: cached fast path guarded by
`(now - session["timestamp"]).seconds <= SESSION_TIMEOUT`, else restore. -/
def get_session (env : SessEnv) (store : SessStore) (now : Int) (user_id : String) :
    SessionData × SessStore :=
  match store.sessions user_id with
  | some session =>
      if tdSeconds now session.timestamp ≤ 900 then (session, store)
      else get_session_restore env store now user_id
  | none => get_session_restore env store now user_id

/-- Python `session.update(extra)` over the extension fields. -/
def mergeExtra (old new : List (String × String)) : List (String × String) :=
  old.filter (fun kv => ¬ (new.map Prod.fst).contains kv.1) ++ new

/-- `set_session`: fetch via `get_session`, merge agent, timestamp and
extras, write the cache synchronously; the Airtable write is a background
thread, applied here when `saveRuns` holds. -/
def set_session (env : SessEnv) (store : SessStore) (now : Int) (user_id agent : String)
    (extra : List (String × String)) : SessionData × SessStore :=
  let gs := get_session env store now user_id
  let session0 := gs.1
  let store1 := gs.2
  let session1 := { session0 with active_agent := some agent, timestamp := now }
  let session := if extra.isEmpty then session1
                 else { session1 with extra := mergeExtra session1.extra extra }
  let store2 := { store1 with sessions := setF store1.sessions user_id session }
  let store3 :=
    if env.saveRuns then
      { store2 with table := setF store2.table user_id ⟨session.active_agent, session.extra⟩ }
    else store2
  (session, store3)

/-- `reset_session`: overwrite the cache with an empty session and delete the
Airtable record in the background (applied when `deleteRuns` holds). -/
def reset_session (env : SessEnv) (store : SessStore) (now : Int) (user_id : String) :
    SessStore :=
  let store1 :=
    { store with sessions := setF store.sessions user_id { active_agent := none, timestamp := now } }
  if env.deleteRuns then { store1 with table := delF store1.table user_id } else store1

end Session

/-! ### Shared fixtures and helper lemmas -/

theorem setF_self {α : Type} (f : String → Option α) (k : String) (v : α) :
    setF f k v k = some v := by simp [setF]

theorem update_state_conv_self (env : Env) (s : Store) (now : Int) (u : String)
    (a : Option String) (d : StateData) :
    (update_state env s now u a d).conv u =
      some ⟨a, now, d.post_options, d.idea_options, d.last_post_id, d.last_image_url,
            d.step, d.expected_mods⟩ := by
  rcases h : env.statePersistOk <;> simp [update_state, h, setF]

theorem str_append_ne_empty (a b : String) (h : a.data ≠ []) : a ++ b ≠ "" := by
  intro e
  apply h
  have hd := congrArg String.data e
  simp at hd
  exact hd.1

def nowD0 : PyDate := ⟨0, 12, 0⟩

def noConv : String → Option ConvState := fun _ => none

def noPend : String → Option PendingIdea := fun _ => none

/-- A benign collaborator environment for concrete runs: config present, all
record-store calls succeed, the GPT fallback is unavailable. -/
def okEnv : Env :=
  { clientConfig := .ok { name := some "Acme" }
    gpt := .error "unavailable"
    listTopPosts := .ok []
    listAllPendingPosts := .ok []
    approvePublish := fun _ => .ok ()
    updatePostImageUrl := fun _ _ => .ok ()
    updatePostCaption := fun _ _ => .ok ()
    getPostById := fun pid => .ok ⟨pid, some "caption", none⟩
    analytics := .ok "stats"
    stateReadOk := true
    statePersistOk := true }

/-- A store whose conversation-state cache holds `st` for user `u`. -/
def mkStore (conv0 stbl0 : String → Option ConvState) (pend0 : String → Option PendingIdea)
    (u : String) (st : ConvState) : Store :=
  ⟨setF conv0 u st, stbl0, pend0⟩

def c2Store : Store :=
  mkStore noConv noConv noPend "u1" ⟨some "show_posts", 0, some ["rec1"], none, none, none, none, none⟩

/-! ### Claim theorems -/

/-- C2 counterexample: with previous state
`{last_action: "show_posts", post_options: ["rec1"]}` and empty `data`,
`update_state(u, "menu", {})` drops `post_options` instead of keeping its old
value, refuting the claimed full-merge semantics. -/
theorem C2_update_state_no_merge_counterexample :
    (update_state okEnv c2Store 1 "u1" (some "menu") {}).conv "u1" =
      some ⟨some "menu", 1, none, none, none, none, none, none⟩ ∧
    ¬ ((update_state okEnv c2Store 1 "u1" (some "menu") {}).conv "u1" =
      some ⟨some "menu", 1, some ["rec1"], none, none, none, none, none⟩) := by
  constructor <;> decide

/-- C2 (amended): `update_state` does not merge `data` into the previous
state: it replaces the stored conversation state with exactly the new
`last_action`, a fresh timestamp and the fields of `data`; every key of the
previous state absent from `data` is dropped.  Entries of other users are
untouched. -/
theorem C2_update_state_replaces (env : Env) (store : Store) (now : Int) (u : String)
    (action : Option String) (data : StateData) :
    (update_state env store now u action data).conv u =
      some ⟨action, now, data.post_options, data.idea_options, data.last_post_id,
            data.last_image_url, data.step, data.expected_mods⟩ ∧
    ∀ v, v ≠ u → (update_state env store now u action data).conv v = store.conv v := by
  refine ⟨update_state_conv_self env store now u action data, fun v hv => ?_⟩
  rcases h : env.statePersistOk <;> simp [update_state, h, setF, hv]

/-- C2 witness: the replacement semantics evaluated at a concrete store, for
the updated user and an untouched one. -/
theorem C2_update_state_replaces_witness :
    (update_state okEnv c2Store 1 "u1" (some "menu") {}).conv "u1" =
      some ⟨some "menu", 1, none, none, none, none, none, none⟩ ∧
    (update_state okEnv c2Store 1 "u1" (some "menu") {}).conv "u2" = c2Store.conv "u2" :=
  ⟨(C2_update_state_replaces okEnv c2Store 1 "u1" (some "menu") {}).1,
   (C2_update_state_replaces okEnv c2Store 1 "u1" (some "menu") {}).2 "u2" (by decide)⟩

/-- C10: when an inbound message carries an image URL, the write performed
before the parsed action is routed replaces the user's whole conversation
state with one containing only the previous `last_action`, the new
`last_image_url` and a timestamp — any stored `post_options`, `idea_options`
or `last_post_id` are discarded.  The second conjunct observes this through
`handle_message` end to end on a message that matches no routing rule. -/
theorem C10_image_write_replaces_state (env : Env) (cfg : ClientConfig) (gerr : String)
    (store : Store) (conv0 stbl0 : String → Option ConvState) (pend0 : String → Option PendingIdea)
    (u url : String) (st : ConvState) (po io : Option (List String)) (lp liu stp : Option String)
    (em : Option Mods) (ts now : Int) (nowD : PyDate)
    (hcfg : env.clientConfig = .ok cfg) (hgpt : env.gpt = .error gerr)
    (hurl : url ≠ "") (hfresh : tdSeconds now ts ≤ 900) :
    (imageWriteThrough env store now u st (some url)).conv u =
      some ⟨st.last_action, now, none, none, none, some url, none, none⟩ ∧
    (handle_message env (mkStore conv0 stbl0 pend0 u ⟨some "menu", ts, po, io, lp, liu, stp, em⟩)
        now nowD u "zzz" (some url)).store.conv u =
      some ⟨some "menu", now, none, none, none, some url, none, none⟩ := by
  constructor
  · simpa [imageWriteThrough] using
      update_state_conv_self env store now u st.last_action { last_image_url := some url }
  · simp +decide [handle_message, handleBody, mkStore, get_state, setF_self, hcfg, hgpt,
      hfresh, WhatsAppParser.parse_message, routeCore, greetingBranch, showPostsBranch, showAllPostsBranch, postSelectedBranch, approveBranch, modifyPostBranch, updatePendingBranch, curateIdeasBranch, awaitingIdeaBranch, awaitingImageBranch, analyticsBranch, skipBranch, imageWriteThrough,
      update_state_conv_self, optStrTruthy, hurl]

/-- C10 witness: the image write-through evaluated on a state holding
`post_options`, `idea_options` and `last_post_id`, all of which disappear. -/
theorem C10_image_write_replaces_state_witness :
    (imageWriteThrough okEnv c2Store 0 "u1"
        ⟨some "show_posts", 0, some ["rec1"], some ["idea1"], some "recX", none, none, none⟩
        (some "http://img/a.jpg")).conv "u1" =
      some ⟨some "show_posts", 0, none, none, none, some "http://img/a.jpg", none, none⟩ ∧
    (handle_message okEnv (mkStore noConv noConv noPend "u1"
        ⟨some "menu", 0, some ["rec1"], some ["idea1"], some "recX", none, none, none⟩)
        0 nowD0 "u1" "zzz" (some "http://img/a.jpg")).store.conv "u1" =
      some ⟨some "menu", 0, none, none, none, some "http://img/a.jpg", none, none⟩ :=
  C10_image_write_replaces_state okEnv { name := some "Acme" } "unavailable" c2Store
    noConv noConv noPend "u1" "http://img/a.jpg"
    ⟨some "show_posts", 0, some ["rec1"], some ["idea1"], some "recX", none, none, none⟩
    (some ["rec1"]) (some ["idea1"]) (some "recX") none none none 0 0 nowD0
    rfl rfl (by decide) (by decide)

/-- C6: after a greeting/menu message (`hi`, `hello`, `hey`, `start`,
`menu`), the stored conversation state is `menu` with no `post_options` or
`idea_options` entries, regardless of the prior state, the prior store
contents or an attached image. -/
theorem C6_greeting_resets_to_menu (env : Env) (cfg : ClientConfig) (store : Store)
    (u msg : String) (now : Int) (nowD : PyDate) (image_url : Option String)
    (hcfg : env.clientConfig = .ok cfg)
    (hmsg : msg ∈ ["hi", "hello", "hey", "start", "menu"]) :
    (handle_message env store now nowD u msg image_url).store.conv u =
      some ⟨some "menu", now, none, none, none, none, none, none⟩ := by
  simp only [List.mem_cons, List.not_mem_nil, or_false] at hmsg
  rcases hmsg with h | h | h | h | h <;>
    (subst h
     simp +decide [handle_message, handleBody, routeCore, greetingBranch, showPostsBranch, showAllPostsBranch, postSelectedBranch, approveBranch, modifyPostBranch, updatePendingBranch, curateIdeasBranch, awaitingIdeaBranch, awaitingImageBranch, analyticsBranch, skipBranch, WhatsAppParser.parse_message,
       hcfg, update_state_conv_self, imageWriteThrough])

/-- C1 counterexample: in state `show_posts` with three options, the bare
selection `"1"` is captured by the social-media-menu keyword rule before the
numeric-selection rule, so the state becomes `menu` — `last_post_id` is not
set to `post_options[0]` and the state is not `post_selected` as claimed. -/
theorem C1_selection_one_counterexample :
    (handle_message okEnv (mkStore noConv noConv noPend "u1"
        ⟨some "show_posts", 0, some ["rec1", "rec2", "rec3"], none, none, none, none, none⟩)
        0 nowD0 "u1" "1" none).store.conv "u1" =
      some ⟨some "menu", 0, none, none, none, none, none, none⟩ ∧
    ¬ ((handle_message okEnv (mkStore noConv noConv noPend "u1"
        ⟨some "show_posts", 0, some ["rec1", "rec2", "rec3"], none, none, none, none, none⟩)
        0 nowD0 "u1" "1" none).store.conv "u1" =
      some ⟨some "post_selected", 0, none, none, some "rec1", none, none, none⟩) := by
  constructor <;> decide

/-- C1 (amended): after `show_posts` with `n = opts.length` options, only the
bare numerals `2` and `3` act as selections (`"1"` is taken by the
social-media-menu rule first).  For `i ∈ \x7b2, 3\x7d`: if `i ≤ n` the state
becomes `post_selected` with `last_post_id = opts[i-1]`; if `i > n` the
parser yields no action, and when the LLM fallback fails the state is left
unchanged and the generic help reply is returned. -/
theorem C1_numeric_selection (env : Env) (cfg : ClientConfig) (gerr : String)
    (conv0 stbl0 : String → Option ConvState) (pend0 : String → Option PendingIdea)
    (u : String) (opts : List String) (ts now : Int) (nowD : PyDate)
    (io : Option (List String)) (lp liu stp : Option String) (em : Option Mods)
    (i : Nat)
    (hcfg : env.clientConfig = .ok cfg) (hgpt : env.gpt = .error gerr)
    (hfresh : tdSeconds now ts ≤ 900) (hi : i = 2 ∨ i = 3) (hne : "" ∉ opts) :
    (i ≤ opts.length →
      (handle_message env (mkStore conv0 stbl0 pend0 u
          ⟨some "show_posts", ts, some opts, io, lp, liu, stp, em⟩)
          now nowD u (toString i) none).store.conv u =
        some ⟨some "post_selected", now, none, none, some (opts.getD (i - 1) ""), none, none, none⟩) ∧
    (opts.length < i →
      (handle_message env (mkStore conv0 stbl0 pend0 u
          ⟨some "show_posts", ts, some opts, io, lp, liu, stp, em⟩)
          now nowD u (toString i) none).store =
        mkStore conv0 stbl0 pend0 u ⟨some "show_posts", ts, some opts, io, lp, liu, stp, em⟩ ∧
      (handle_message env (mkStore conv0 stbl0 pend0 u
          ⟨some "show_posts", ts, some opts, io, lp, liu, stp, em⟩)
          now nowD u (toString i) none).reply = msg_fallback) := by
  constructor
  · intro hin
    rcases hi with h | h <;> subst h
    · have hlt : 1 < opts.length := by omega
      have hnne : opts[1] ≠ "" := fun e => hne (e ▸ List.getElem_mem hlt)
      rw [show (2 : Nat) - 1 = 1 from rfl, List.getD_eq_getElem opts "" hlt]
      simp +decide [handle_message, handleBody, mkStore, get_state, setF_self, hcfg, hfresh,
        WhatsAppParser.parse_message, WhatsAppParser.handle_selection, routeCore, greetingBranch, showPostsBranch, showAllPostsBranch, postSelectedBranch, approveBranch, modifyPostBranch, updatePendingBranch, curateIdeasBranch, awaitingIdeaBranch, awaitingImageBranch, analyticsBranch, skipBranch, update_state,
        optStrTruthy, pvToString, PVal.truthy, hlt, setF]
      rw [if_neg (by simpa using hnne)]
      rcases hp : env.statePersistOk <;> simp [hp, setF]
    · have hlt : 2 < opts.length := by omega
      have hnne : opts[2] ≠ "" := fun e => hne (e ▸ List.getElem_mem hlt)
      rw [show (3 : Nat) - 1 = 2 from rfl, List.getD_eq_getElem opts "" hlt]
      simp +decide [handle_message, handleBody, mkStore, get_state, setF_self, hcfg, hfresh,
        WhatsAppParser.parse_message, WhatsAppParser.handle_selection, routeCore, greetingBranch, showPostsBranch, showAllPostsBranch, postSelectedBranch, approveBranch, modifyPostBranch, updatePendingBranch, curateIdeasBranch, awaitingIdeaBranch, awaitingImageBranch, analyticsBranch, skipBranch, update_state,
        optStrTruthy, pvToString, PVal.truthy, hlt, setF]
      rw [if_neg (by simpa using hnne)]
      rcases hp : env.statePersistOk <;> simp [hp, setF]
  · intro hout
    rcases hi with h | h <;> subst h
    · have hnlt : ¬ (1 < opts.length) := by omega
      constructor <;>
        simp +decide [handle_message, handleBody, mkStore, get_state, setF_self, hcfg, hgpt,
          hfresh, WhatsAppParser.parse_message, WhatsAppParser.handle_selection, routeCore, greetingBranch, showPostsBranch, showAllPostsBranch, postSelectedBranch, approveBranch, modifyPostBranch, updatePendingBranch, curateIdeasBranch, awaitingIdeaBranch, awaitingImageBranch, analyticsBranch, skipBranch, hnlt]
    · have hnlt : ¬ (2 < opts.length) := by omega
      constructor <;>
        simp +decide [handle_message, handleBody, mkStore, get_state, setF_self, hcfg, hgpt,
          hfresh, WhatsAppParser.parse_message, WhatsAppParser.handle_selection, routeCore, greetingBranch, showPostsBranch, showAllPostsBranch, postSelectedBranch, approveBranch, modifyPostBranch, updatePendingBranch, curateIdeasBranch, awaitingIdeaBranch, awaitingImageBranch, analyticsBranch, skipBranch, hnlt]

/-- C1 witness: selection `2` of three options lands on `rec2`; selection `3`
of a single option leaves the store unchanged with the generic reply. -/
theorem C1_numeric_selection_witness :
    ((handle_message okEnv (mkStore noConv noConv noPend "u1"
        ⟨some "show_posts", 0, some ["rec1", "rec2", "rec3"], none, none, none, none, none⟩)
        0 nowD0 "u1" (toString 2) none).store.conv "u1" =
      some ⟨some "post_selected", 0, none, none, some (["rec1", "rec2", "rec3"].getD (2 - 1) ""),
            none, none, none⟩) ∧
    ((handle_message okEnv (mkStore noConv noConv noPend "u1"
        ⟨some "show_posts", 0, some ["recA"], none, none, none, none, none⟩)
        0 nowD0 "u1" (toString 3) none).store =
      mkStore noConv noConv noPend "u1" ⟨some "show_posts", 0, some ["recA"], none, none, none, none, none⟩) :=
  ⟨(C1_numeric_selection okEnv { name := some "Acme" } "unavailable" noConv noConv noPend
      "u1" ["rec1", "rec2", "rec3"] 0 0 nowD0 none none none none none 2
      rfl rfl (by decide) (Or.inl rfl) (by decide)).1 (by decide),
   ((C1_numeric_selection okEnv { name := some "Acme" } "unavailable" noConv noConv noPend
      "u1" ["recA"] 0 0 nowD0 none none none none none 3
      rfl rfl (by decide) (Or.inr rfl) (by decide)).2 (by decide)).1⟩

/-- C3: the modify flow.  From `post_selected` with `last_post_id = pid`,
`"update"` moves the state to `update_pending` (keeping `pid`); from
`update_pending`, an image URL message invokes the image-field update on
`pid` and returns to `post_selected`, while a plain text message instead
invokes the caption-field update on `pid` and also returns to
`post_selected`. -/
theorem C3_modify_flow (env : Env) (cfg : ClientConfig)
    (conv0 stbl0 : String → Option ConvState) (pend0 : String → Option PendingIdea)
    (u pid : String) (ts now : Int) (nowD : PyDate)
    (hcfg : env.clientConfig = .ok cfg)
    (himg : env.updatePostImageUrl pid "https://example.com/new.jpg" = .ok ())
    (hcap : env.updatePostCaption pid "New caption text" = .ok ())
    (hfresh : tdSeconds now ts ≤ 900) (hpid : pid ≠ "") :
    ((handle_message env (mkStore conv0 stbl0 pend0 u
        ⟨some "post_selected", ts, none, none, some pid, none, none, none⟩)
        now nowD u "update" none).store.conv u =
      some ⟨some "update_pending", now, none, none, some pid, none, none,
            some ⟨false, false, false⟩⟩) ∧
    ((handle_message env (mkStore conv0 stbl0 pend0 u
        ⟨some "update_pending", ts, none, none, some pid, none, none, some ⟨false, false, false⟩⟩)
        now nowD u "https://example.com/new.jpg" none).store.conv u =
      some ⟨some "post_selected", now, none, none, some pid, none, none, none⟩ ∧
     (handle_message env (mkStore conv0 stbl0 pend0 u
        ⟨some "update_pending", ts, none, none, some pid, none, none, some ⟨false, false, false⟩⟩)
        now nowD u "https://example.com/new.jpg" none).trace =
      [Event.updateImage pid "https://example.com/new.jpg", Event.getPost pid]) ∧
    ((handle_message env (mkStore conv0 stbl0 pend0 u
        ⟨some "update_pending", ts, none, none, some pid, none, none, some ⟨false, false, false⟩⟩)
        now nowD u "New caption text" none).store.conv u =
      some ⟨some "post_selected", now, none, none, some pid, none, none, none⟩ ∧
     (handle_message env (mkStore conv0 stbl0 pend0 u
        ⟨some "update_pending", ts, none, none, some pid, none, none, some ⟨false, false, false⟩⟩)
        now nowD u "New caption text" none).trace =
      [Event.updateCaption pid "New caption text", Event.getPost pid]) := by
  have hstrip : pyStripStr "https://example.com/new.jpg" = "https://example.com/new.jpg" := by
    decide
  rcases hgp : env.getPostById pid with e | p <;>
    refine ⟨?_, ⟨?_, ?_⟩, ⟨?_, ?_⟩⟩ <;>
    simp +decide [handle_message, handleBody, mkStore, get_state, setF_self, hcfg, hfresh,
      WhatsAppParser.parse_message, routeCore, greetingBranch, showPostsBranch, showAllPostsBranch, postSelectedBranch, approveBranch, modifyPostBranch, updatePendingBranch, curateIdeasBranch, awaitingIdeaBranch, awaitingImageBranch, analyticsBranch, skipBranch, afterUpdate, update_state_conv_self,
      optStrTruthy, pvOrState, pvToString, pvOfOptStr, PVal.truthy, hpid, hstrip,
      himg, hcap, hgp, extract_modifications]

/-- C3 witness: the modify flow evaluated on a concrete store with
`pid = "recX"`. -/
theorem C3_modify_flow_witness :
    ((handle_message okEnv (mkStore noConv noConv noPend "u1"
        ⟨some "post_selected", 0, none, none, some "recX", none, none, none⟩)
        0 nowD0 "u1" "update" none).store.conv "u1" =
      some ⟨some "update_pending", 0, none, none, some "recX", none, none,
            some ⟨false, false, false⟩⟩) ∧
    ((handle_message okEnv (mkStore noConv noConv noPend "u1"
        ⟨some "update_pending", 0, none, none, some "recX", none, none, some ⟨false, false, false⟩⟩)
        0 nowD0 "u1" "https://example.com/new.jpg" none).store.conv "u1" =
      some ⟨some "post_selected", 0, none, none, some "recX", none, none, none⟩ ∧
     (handle_message okEnv (mkStore noConv noConv noPend "u1"
        ⟨some "update_pending", 0, none, none, some "recX", none, none, some ⟨false, false, false⟩⟩)
        0 nowD0 "u1" "https://example.com/new.jpg" none).trace =
      [Event.updateImage "recX" "https://example.com/new.jpg", Event.getPost "recX"]) ∧
    ((handle_message okEnv (mkStore noConv noConv noPend "u1"
        ⟨some "update_pending", 0, none, none, some "recX", none, none, some ⟨false, false, false⟩⟩)
        0 nowD0 "u1" "New caption text" none).store.conv "u1" =
      some ⟨some "post_selected", 0, none, none, some "recX", none, none, none⟩ ∧
     (handle_message okEnv (mkStore noConv noConv noPend "u1"
        ⟨some "update_pending", 0, none, none, some "recX", none, none, some ⟨false, false, false⟩⟩)
        0 nowD0 "u1" "New caption text" none).trace =
      [Event.updateCaption "recX" "New caption text", Event.getPost "recX"]) :=
  C3_modify_flow okEnv { name := some "Acme" } noConv noConv noPend "u1" "recX" 0 0 nowD0
    rfl rfl rfl (by decide) (by decide)

/-- C4: the draft flow.  From `menu`, the sequence `"new"`,
`"Promote our weekend sale"`, `"done"` (no image) drives the state through
`awaiting_idea`, `awaiting_image`, `curating`; stores then removes the
pending-draft entry; and dispatches exactly one background draft task with
`idea_text = "Promote our weekend sale"` and no image. -/
theorem C4_draft_flow (env : Env) (cfg : ClientConfig)
    (conv0 stbl0 : String → Option ConvState) (pend0 : String → Option PendingIdea)
    (u : String) (ts now : Int) (nowD : PyDate)
    (hcfg : env.clientConfig = .ok cfg)
    (hfresh : tdSeconds now ts ≤ 900) :
    (handle_message env (mkStore conv0 stbl0 pend0 u ⟨some "menu", ts, none, none, none, none, none, none⟩)
        now nowD u "new" none).store.conv u =
      some ⟨some "awaiting_idea", now, none, none, none, none, some "awaiting_idea", none⟩ ∧
    (handle_message env
        (handle_message env (mkStore conv0 stbl0 pend0 u ⟨some "menu", ts, none, none, none, none, none, none⟩)
          now nowD u "new" none).store
        now nowD u "Promote our weekend sale" none).store.conv u =
      some ⟨some "awaiting_image", now, none, none, none, none, none, none⟩ ∧
    (handle_message env
        (handle_message env (mkStore conv0 stbl0 pend0 u ⟨some "menu", ts, none, none, none, none, none, none⟩)
          now nowD u "new" none).store
        now nowD u "Promote our weekend sale" none).store.pending u =
      some ⟨"Promote our weekend sale", now⟩ ∧
    (handle_message env
        (handle_message env
          (handle_message env (mkStore conv0 stbl0 pend0 u ⟨some "menu", ts, none, none, none, none, none, none⟩)
            now nowD u "new" none).store
          now nowD u "Promote our weekend sale" none).store
        now nowD u "done" none).store.conv u =
      some ⟨some "curating", now, none, none, none, none, none, none⟩ ∧
    (handle_message env
        (handle_message env
          (handle_message env (mkStore conv0 stbl0 pend0 u ⟨some "menu", ts, none, none, none, none, none, none⟩)
            now nowD u "new" none).store
          now nowD u "Promote our weekend sale" none).store
        now nowD u "done" none).store.pending u = none ∧
    (handle_message env (mkStore conv0 stbl0 pend0 u ⟨some "menu", ts, none, none, none, none, none, none⟩)
        now nowD u "new" none).trace = [] ∧
    (handle_message env
        (handle_message env (mkStore conv0 stbl0 pend0 u ⟨some "menu", ts, none, none, none, none, none, none⟩)
          now nowD u "new" none).store
        now nowD u "Promote our weekend sale" none).trace = [] ∧
    (handle_message env
        (handle_message env
          (handle_message env (mkStore conv0 stbl0 pend0 u ⟨some "menu", ts, none, none, none, none, none, none⟩)
            now nowD u "new" none).store
          now nowD u "Promote our weekend sale" none).store
        now nowD u "done" none).trace =
      [Event.dispatchDraft u "Promote our weekend sale" none u] := by
  have h0 : tdSeconds now now ≤ 900 := by simp [tdSeconds]
  have hstrip : pyStripStr "Promote our weekend sale" = "Promote our weekend sale" := by decide
  rcases hp : env.statePersistOk <;>
    refine ⟨?_, ?_, ?_, ?_, ?_, ?_, ?_, ?_⟩ <;>
    simp +decide [handle_message, handleBody, mkStore, get_state, setF_self, hcfg, hfresh, h0,
      WhatsAppParser.parse_message, routeCore, greetingBranch, showPostsBranch, showAllPostsBranch, postSelectedBranch, approveBranch, modifyPostBranch, updatePendingBranch, curateIdeasBranch, awaitingIdeaBranch, awaitingImageBranch, analyticsBranch, skipBranch, update_state, optStrTruthy, setF, delF,
      hstrip, hp]

/-- C4 witness: the draft flow evaluated on a concrete store. -/
theorem C4_draft_flow_witness :
    (handle_message okEnv
        (handle_message okEnv
          (handle_message okEnv (mkStore noConv noConv noPend "u1"
              ⟨some "menu", 0, none, none, none, none, none, none⟩)
            0 nowD0 "u1" "new" none).store
          0 nowD0 "u1" "Promote our weekend sale" none).store
        0 nowD0 "u1" "done" none).store.pending "u1" = none ∧
    (handle_message okEnv
        (handle_message okEnv
          (handle_message okEnv (mkStore noConv noConv noPend "u1"
              ⟨some "menu", 0, none, none, none, none, none, none⟩)
            0 nowD0 "u1" "new" none).store
          0 nowD0 "u1" "Promote our weekend sale" none).store
        0 nowD0 "u1" "done" none).trace =
      [Event.dispatchDraft "u1" "Promote our weekend sale" none "u1"] :=
  ⟨(C4_draft_flow okEnv { name := some "Acme" } noConv noConv noPend "u1" 0 0 nowD0
      rfl (by decide)).2.2.2.2.1,
   (C4_draft_flow okEnv { name := some "Acme" } noConv noConv noPend "u1" 0 0 nowD0
      rfl (by decide)).2.2.2.2.2.2.2⟩

/-- C5: in state `show_posts` with `post_options = ["rec1","rec2","rec3"]`,
the message `"approve 2"` resolves the target to `rec2`, calls the
approve-and-publish collaborator exactly once with that record ID, and moves
the conversation state to `menu`. -/
theorem C5_approve_selection (env : Env) (cfg : ClientConfig)
    (conv0 stbl0 : String → Option ConvState) (pend0 : String → Option PendingIdea)
    (u : String) (ts now : Int) (nowD : PyDate)
    (io : Option (List String)) (lp liu stp : Option String) (em : Option Mods)
    (hcfg : env.clientConfig = .ok cfg)
    (happ : env.approvePublish "rec2" = .ok ())
    (hfresh : tdSeconds now ts ≤ 900) :
    (handle_message env (mkStore conv0 stbl0 pend0 u
        ⟨some "show_posts", ts, some ["rec1", "rec2", "rec3"], io, lp, liu, stp, em⟩)
        now nowD u "approve 2" none).store.conv u =
      some ⟨some "menu", now, none, none, none, none, none, none⟩ ∧
    (handle_message env (mkStore conv0 stbl0 pend0 u
        ⟨some "show_posts", ts, some ["rec1", "rec2", "rec3"], io, lp, liu, stp, em⟩)
        now nowD u "approve 2" none).trace = [Event.approvePublish u "rec2"] := by
  have hsd : searchDigits (pyLowerStrip (pyStripLower "approve 2")).data = some 2 := by decide
  constructor <;>
    simp +decide [handle_message, handleBody, mkStore, get_state, setF_self, hcfg, hfresh,
      WhatsAppParser.parse_message, routeCore, greetingBranch, showPostsBranch, showAllPostsBranch, postSelectedBranch, approveBranch, modifyPostBranch, updatePendingBranch, curateIdeasBranch, awaitingIdeaBranch, awaitingImageBranch, analyticsBranch, skipBranch, approveFinish, optStrTruthy, pvOrState,
      update_state_conv_self, happ, hsd, pvOfOptNat]

/-- C5 witness: the approve scenario evaluated on a concrete store. -/
theorem C5_approve_selection_witness :
    (handle_message okEnv (mkStore noConv noConv noPend "u1"
        ⟨some "show_posts", 0, some ["rec1", "rec2", "rec3"], none, none, none, none, none⟩)
        0 nowD0 "u1" "approve 2" none).store.conv "u1" =
      some ⟨some "menu", 0, none, none, none, none, none, none⟩ ∧
    (handle_message okEnv (mkStore noConv noConv noPend "u1"
        ⟨some "show_posts", 0, some ["rec1", "rec2", "rec3"], none, none, none, none, none⟩)
        0 nowD0 "u1" "approve 2" none).trace = [Event.approvePublish "u1" "rec2"] :=
  C5_approve_selection okEnv { name := some "Acme" } noConv noConv noPend "u1" 0 0 nowD0
    none none none none none rfl rfl (by decide)

def sessOk : Session.SessEnv := ⟨true, true, true⟩

def emptySessStore : Session.SessStore := ⟨fun _ => none, fun _ => none⟩

/-- C7: divergence witness for the session TTL check.  The code guards the
cached fast path with `(now - ts).seconds <= 900`; `timedelta.seconds` is the
elapsed time reduced modulo one day, so a cached session whose timestamp is
exactly 86400 seconds (24 h) old — far beyond the 15-minute TTL — is still
returned from the cache, its stale timestamp included, instead of the durable
lookup the claim (and the 15-minute TTL intent) requires; with an empty
durable table, the claimed behavior would be a fresh empty session with
`active_agent = none`. -/
theorem C7_ttl_day_wrap_divergence :
    (86400 : Int) > 900 ∧
    tdSeconds 86400 0 = 0 ∧
    (Session.get_session sessOk
        ⟨setF (fun _ => none) "u" ⟨some "agent-A", 0, []⟩, fun _ => none⟩ 86400 "u").1 =
      ⟨some "agent-A", 0, []⟩ := by
  refine ⟨by decide, by decide, by decide⟩

/-- C8: `set_session(u, "agent-A")` followed by `get_session(u)` within the
TTL returns `active_agent = "agent-A"`; after the cache entry is evicted,
`get_session(u)` at any later time restores the same value from the durable
copy, assuming the background durable write completed and the durable read
succeeds. -/
theorem C8_session_round_trip (env : Session.SessEnv) (store : Session.SessStore)
    (u : String) (t0 t1 t2 : Int)
    (hread : env.readOk = true) (hsave : env.saveRuns = true)
    (h01 : t0 ≤ t1) (httl : t1 - t0 ≤ 900) :
    (Session.get_session env (Session.set_session env store t0 u "agent-A" []).2 t1 u).1.active_agent =
      some "agent-A" ∧
    (Session.get_session env
        { (Session.set_session env store t0 u "agent-A" []).2 with
          sessions := delF (Session.set_session env store t0 u "agent-A" []).2.sessions u }
        t2 u).1.active_agent = some "agent-A" := by
  have h1 : tdSeconds t1 t0 ≤ 900 := by
    unfold tdSeconds
    rw [Int.emod_eq_of_lt (by omega) (by omega)]
    omega
  constructor <;>
    simp [Session.set_session, Session.get_session, Session.get_session_restore,
      Session.mergeExtra, setF, delF, hread, hsave, h1]

/-- C8 witness: the round trip evaluated on an empty concrete store, with the
second read far beyond the TTL. -/
theorem C8_session_round_trip_witness :
    (Session.get_session sessOk
        (Session.set_session sessOk emptySessStore 0 "u" "agent-A" []).2 100 "u").1.active_agent =
      some "agent-A" ∧
    (Session.get_session sessOk
        { (Session.set_session sessOk emptySessStore 0 "u" "agent-A" []).2 with
          sessions := delF (Session.set_session sessOk emptySessStore 0 "u" "agent-A" []).2.sessions "u" }
        999999 "u").1.active_agent = some "agent-A" :=
  C8_session_round_trip sessOk emptySessStore "u" 0 100 999999 rfl rfl (by decide) (by decide)

theorem str_append_ne_empty_right (a b : String) (h : b.data ≠ []) : a ++ b ≠ "" := by
  intro e
  apply h
  have hd := congrArg String.data e
  simp at hd
  exact hd.2

/- Reply non-emptiness, one small lemma per dispatch branch. -/

theorem greetingBranch_reply_ne (env : Env) (store : Store) (now : Int)
    (user_id client_name : String) (tr : List Event) (r : String)
    (hb : (greetingBranch env store now user_id client_name tr).1 = .ok r) : r ≠ "" := by
  simp only [greetingBranch] at hb
  simp at hb
  subst hb
  simp only [msg_menu]
  apply str_append_ne_empty_right
  decide

theorem showPostsBranch_reply_ne (env : Env) (store : Store) (now : Int)
    (user_id client_id : String) (tr : List Event) (r : String)
    (hb : (showPostsBranch env store now user_id client_id tr).1 = .ok r) : r ≠ "" := by
  simp only [showPostsBranch] at hb
  iterate 3 (all_goals try split at hb)
  all_goals first
    | (simp at hb; done)
    | (simp at hb
       subst hb
       first
        | decide
        | (simp only [msg_top_posts]
           apply str_append_ne_empty_right
           decide))

theorem showAllPostsBranch_reply_ne (env : Env) (store : Store) (now : Int)
    (user_id client_id : String) (tr : List Event) (r : String)
    (hb : (showAllPostsBranch env store now user_id client_id tr).1 = .ok r) : r ≠ "" := by
  simp only [showAllPostsBranch] at hb
  iterate 3 (all_goals try split at hb)
  all_goals first
    | (simp at hb; done)
    | (simp at hb
       subst hb
       first
        | decide
        | (simp only [msg_all_posts]
           apply str_append_ne_empty_right
           decide))

theorem postSelectedBranch_reply_ne (env : Env) (store : Store) (now : Int)
    (user_id : String) (context : Ctx) (tr : List Event) (r : String)
    (hb : (postSelectedBranch env store now user_id context tr).1 = .ok r) : r ≠ "" := by
  simp only [postSelectedBranch] at hb
  iterate 3 (all_goals try split at hb)
  all_goals first
    | (simp at hb; done)
    | (simp at hb
       subst hb
       first
        | decide
        | (simp only [msg_selected]
           apply str_append_ne_empty_right
           decide))

theorem approveFinish_reply_ne (env : Env) (store : Store) (now : Int)
    (user_id client_id : String) (post_id : Option String) (tr : List Event) (r : String)
    (hb : (approveFinish env store now user_id client_id post_id tr).1 = .ok r) : r ≠ "" := by
  simp only [approveFinish] at hb
  iterate 3 (all_goals try split at hb)
  all_goals first
    | (simp at hb; done)
    | (simp at hb
       subst hb
       decide)

theorem approveBranch_reply_ne (env : Env) (store : Store) (now : Int)
    (user_id client_id : String) (state : ConvState) (context : Ctx) (tr : List Event)
    (r : String)
    (hb : (approveBranch env store now user_id client_id state context tr).1 = .ok r) :
    r ≠ "" := by
  simp only [approveBranch] at hb
  iterate 3 (all_goals try split at hb)
  all_goals first
    | (apply approveFinish_reply_ne
       exact hb)
    | (simp at hb
       subst hb
       decide)

theorem modifyPostBranch_reply_ne (env : Env) (store : Store) (now : Int)
    (user_id : String) (state : ConvState) (context : Ctx) (tr : List Event) (r : String)
    (hb : (modifyPostBranch env store now user_id state context tr).1 = .ok r) : r ≠ "" := by
  simp only [modifyPostBranch] at hb
  simp at hb
  subst hb
  decide

theorem afterUpdate_reply_ne (env : Env) (store : Store) (now : Int)
    (user_id post_id msg : String) (tr : List Event) (r : String)
    (hb : (afterUpdate env store now user_id post_id msg tr).1 = .ok r) : r ≠ "" := by
  simp only [afterUpdate] at hb
  iterate 3 (all_goals try split at hb)
  all_goals simp at hb
  all_goals subst hb
  all_goals (apply str_append_ne_empty_right; decide)

theorem updatePendingBranch_reply_ne (env : Env) (store : Store) (now : Int)
    (user_id : String) (state : ConvState) (text_clean text : String) (tr : List Event)
    (r : String)
    (hb : (updatePendingBranch env store now user_id state text_clean text tr).1 = .ok r) :
    r ≠ "" := by
  simp only [updatePendingBranch] at hb
  iterate 4 (all_goals try split at hb)
  all_goals first
    | (apply afterUpdate_reply_ne
       exact hb)
    | (simp at hb; done)
    | (simp at hb
       subst hb
       decide)

theorem curateIdeasBranch_reply_ne (env : Env) (store : Store) (now : Int)
    (user_id : String) (tr : List Event) (r : String)
    (hb : (curateIdeasBranch env store now user_id tr).1 = .ok r) : r ≠ "" := by
  simp only [curateIdeasBranch] at hb
  simp at hb
  subst hb
  decide

theorem awaitingIdeaBranch_reply_ne (env : Env) (store : Store) (now : Int)
    (user_id text : String) (tr : List Event) (r : String)
    (hb : (awaitingIdeaBranch env store now user_id text tr).1 = .ok r) : r ≠ "" := by
  simp only [awaitingIdeaBranch] at hb
  simp at hb
  subst hb
  decide

theorem awaitingImageBranch_reply_ne (env : Env) (store : Store) (now : Int)
    (user_id client_id text_clean : String) (image_url : Option String) (tr : List Event)
    (r : String)
    (hb : (awaitingImageBranch env store now user_id client_id text_clean image_url tr).1 =
      .ok r) : r ≠ "" := by
  simp only [awaitingImageBranch] at hb
  iterate 4 (all_goals try split at hb)
  all_goals first
    | (simp at hb; done)
    | (simp at hb
       subst hb
       decide)

theorem analyticsBranch_reply_ne (env : Env) (store : Store) (client_id : String)
    (tr : List Event) (r : String)
    (hb : (analyticsBranch env store client_id tr).1 = .ok r) : r ≠ "" := by
  simp only [analyticsBranch] at hb
  iterate 2 (all_goals try split at hb)
  all_goals first
    | (simp at hb; done)
    | (simp at hb
       subst hb
       simp only [msg_analytics]
       apply str_append_ne_empty
       decide)

theorem skipBranch_reply_ne (env : Env) (store : Store) (now : Int)
    (user_id : String) (tr : List Event) (r : String)
    (hb : (skipBranch env store now user_id tr).1 = .ok r) : r ≠ "" := by
  simp only [skipBranch] at hb
  simp at hb
  subst hb
  decide

/-- Every reply the dispatch chain can produce on a non-raising path is a
nonempty string. -/
theorem routeCore_ok_reply_ne (env : Env) (store : Store) (now : Int)
    (user_id client_id client_name : String) (state : ConvState) (action : Option String)
    (context : Ctx) (text_clean text : String) (image_url : Option String)
    (tr : List Event) (r : String)
    (hb : (routeCore env store now user_id client_id client_name state action context
            text_clean text image_url tr).1 = .ok r) : r ≠ "" := by
  rw [routeCore.eq_def] at hb
  by_cases h1 : action = some "greeting" ∨ action = some "social_media_menu" ∨ text_clean = "menu"
  · rw [if_pos h1] at hb
    apply greetingBranch_reply_ne
    exact hb
  · rw [if_neg h1] at hb
    by_cases h2 : action = some "show_posts"
    · rw [if_pos h2] at hb
      apply showPostsBranch_reply_ne
      exact hb
    · rw [if_neg h2] at hb
      by_cases h3 : action = some "show_all_posts"
      · rw [if_pos h3] at hb
        apply showAllPostsBranch_reply_ne
        exact hb
      · rw [if_neg h3] at hb
        by_cases h4 : action = some "post_selected"
        · rw [if_pos h4] at hb
          apply postSelectedBranch_reply_ne
          exact hb
        · rw [if_neg h4] at hb
          by_cases h5 : action = some "approve_post"
          · rw [if_pos h5] at hb
            apply approveBranch_reply_ne
            exact hb
          · rw [if_neg h5] at hb
            by_cases h6 : action = some "modify_post"
            · rw [if_pos h6] at hb
              apply modifyPostBranch_reply_ne
              exact hb
            · rw [if_neg h6] at hb
              by_cases h7 : state.last_action = some "update_pending"
              · rw [if_pos h7] at hb
                apply updatePendingBranch_reply_ne
                exact hb
              · rw [if_neg h7] at hb
                by_cases h8 : action = some "curate_ideas"
                · rw [if_pos h8] at hb
                  apply curateIdeasBranch_reply_ne
                  exact hb
                · rw [if_neg h8] at hb
                  by_cases h9 : state.last_action = some "awaiting_idea" ∧ ¬ (text_clean = "skip" ∨ text_clean = "menu")
                  · rw [if_pos h9] at hb
                    apply awaitingIdeaBranch_reply_ne
                    exact hb
                  · rw [if_neg h9] at hb
                    by_cases h10 : state.last_action = some "awaiting_image"
                    · rw [if_pos h10] at hb
                      apply awaitingImageBranch_reply_ne
                      exact hb
                    · rw [if_neg h10] at hb
                      by_cases h11 : action = some "analytics"
                      · rw [if_pos h11] at hb
                        apply analyticsBranch_reply_ne
                        exact hb
                      · rw [if_neg h11] at hb
                        by_cases h12 : text_clean = "skip" ∨ text_clean = "none"
                        · rw [if_pos h12] at hb
                          apply skipBranch_reply_ne
                          exact hb
                        · rw [if_neg h12] at hb
                          exact Except.ok.inj hb ▸ (show msg_fallback ≠ "" by decide)

/-- C9: for every input and every collaborator behavior — including any
combination of raised exceptions from the state store, record store, LLM,
publisher or messaging layer — `handle_message` propagates no exception past
its boundary and returns a (nonempty) text reply: the outer guard converts
any escaped exception into the fixed apology reply, and every normal branch
reply is nonempty. -/
theorem C9_router_always_replies (env : Env) (store : Store) (now : Int) (nowD : PyDate)
    (u text : String) (img : Option String) :
    (handle_message env store now nowD u text img).reply ≠ "" := by
  rcases hb : (handleBody env store now nowD u text img).1 with e | r
  · simp [handle_message, hb]
    decide
  · have hr : r ≠ "" := by
      simp only [handleBody] at hb
      rcases hcfg : env.clientConfig with ce | cfg <;> rw [hcfg] at hb <;> simp only [] at hb
      · simp at hb
      · exact routeCore_ok_reply_ne _ _ _ _ _ _ _ _ _ _ _ _ _ _ hb
    simpa [handle_message, hb] using hr

/-- C6 witness: a concrete run from a `show_posts` state with stored options
and an attached image still lands on the bare `menu` state. -/
theorem C6_greeting_resets_to_menu_witness :
    (handle_message okEnv c2Store 5 nowD0 "u1" "hi" (some "http://img/a.jpg")).store.conv "u1" =
      some ⟨some "menu", 5, none, none, none, none, none, none⟩ :=
  C6_greeting_resets_to_menu okEnv { name := some "Acme" } c2Store "u1" "hi" 5 nowD0
    (some "http://img/a.jpg") rfl (by decide)

end Vayu
